import Mathlib

/-!
Shallow embedding of the Coursebot lifecycle engine.

The SQLite `students` table (database.py, `create_table_if_not_exists`) is
modelled as a `List StudentRecord`; `UPDATE ... WHERE user_id = ?` becomes a
map over the list touching exactly the rows with that `userId`, and
`SELECT ... WHERE user_id = ?` / `fetchone` becomes a first-match lookup.
Timestamps are natural numbers counted in seconds; `timedelta(days = d)`
becomes `d * secondsPerDay`.  Receipt image payloads are opaque and modelled
as `Nat` handles.  Messaging side effects (`bot.send_message`, ban/unban) are
modelled by recording the attempted notifications and by boolean success
parameters (`sendOk`, `msgOk`); an exception raised by a send corresponds to
the success parameter being `false`.
-/

inductive PaymentStatus
  | pending
  | verified
  | denied
  | expired
deriving DecidableEq, Repr

inductive CertStatus
  | none
  | pending
  | verified
  | denied
deriving DecidableEq, Repr

/-- One row of the `students` table (the AUTOINCREMENT `id` column carries no
information used by the core and is omitted; rows keep insertion order). -/
structure StudentRecord where
  userId : Nat
  fullName : String
  phoneNumber : String
  courseSelected : String
  paymentReceipt : Option Nat
  paymentStatus : PaymentStatus
  chatId : Int
  verificationDate : Option Nat
  certificateStatus : CertStatus
  certificateReceipt : Option Nat
  certificateNotified : Bool
deriving DecidableEq, Repr

/-- A course entry of `config.json` as read by `main.py`. -/
structure Course where
  name : String
  price : Nat
  group_id : Int
  duration_days : Nat
  certificate_price : Nat
  certificate_wait_days : Nat
deriving DecidableEq, Repr

def secondsPerDay : Nat := 86400

/-- `SELECT * FROM students WHERE user_id = ?` with `fetchone`:
first row whose `userId` matches. -/
def dbGet : List StudentRecord → Nat → Option StudentRecord
  | [], _ => none
  | r :: t, uid => if r.userId = uid then some r else dbGet t uid

/-- `UPDATE students SET ... WHERE user_id = ?`: rewrite every row whose
`userId` matches, leave the others alone. -/
def dbUpdate : List StudentRecord → Nat → (StudentRecord → StudentRecord) → List StudentRecord
  | [], _, _ => []
  | r :: t, uid, f => (if r.userId = uid then f r else r) :: dbUpdate t uid f

/-- database.add_student: INSERT a fresh row; on an IntegrityError (the
`userId` already exists) overwrite the application fields and reset the
verification/certificate fields of the existing row. -/
def add_student (db : List StudentRecord) (user_id : Nat)
    (full_name phone_number course_selected : String)
    (payment_receipt_image : Nat) (chat_id : Int) : List StudentRecord :=
  match dbGet db user_id with
  | Option.none =>
      db ++ [{ userId := user_id, fullName := full_name, phoneNumber := phone_number,
               courseSelected := course_selected, paymentReceipt := some payment_receipt_image,
               paymentStatus := PaymentStatus.pending, chatId := chat_id,
               verificationDate := Option.none, certificateStatus := CertStatus.none,
               certificateReceipt := Option.none, certificateNotified := false }]
  | some _ =>
      dbUpdate db user_id fun r =>
        { r with fullName := full_name, phoneNumber := phone_number,
                 courseSelected := course_selected,
                 paymentReceipt := some payment_receipt_image,
                 paymentStatus := PaymentStatus.pending, chatId := chat_id,
                 verificationDate := Option.none, certificateStatus := CertStatus.none,
                 certificateReceipt := Option.none, certificateNotified := false }

/-- database.update_payment_status: set the payment status, and the
verification date as well when one is passed. -/
def update_payment_status (db : List StudentRecord) (user_id : Nat)
    (status : PaymentStatus) (verification_date : Option Nat) : List StudentRecord :=
  match verification_date with
  | some d => dbUpdate db user_id fun r =>
      { r with paymentStatus := status, verificationDate := some d }
  | Option.none => dbUpdate db user_id fun r => { r with paymentStatus := status }

/-- database.update_payment_status_to_expired: unconditionally set the payment
status to expired for the given user id. -/
def update_payment_status_to_expired (db : List StudentRecord) (user_id : Nat) :
    List StudentRecord :=
  dbUpdate db user_id fun r => { r with paymentStatus := PaymentStatus.expired }

/-- database.update_certificate_status. -/
def update_certificate_status (db : List StudentRecord) (user_id : Nat)
    (status : CertStatus) : List StudentRecord :=
  dbUpdate db user_id fun r => { r with certificateStatus := status }

/-- database.add_certificate_receipt: store the receipt and set the
certificate status to pending. -/
def add_certificate_receipt (db : List StudentRecord) (user_id : Nat)
    (receipt_image : Nat) : List StudentRecord :=
  dbUpdate db user_id fun r =>
    { r with certificateStatus := CertStatus.pending,
             certificateReceipt := some receipt_image }

/-- database.update_certificate_notified: set the notified flag to true. -/
def update_certificate_notified (db : List StudentRecord) (user_id : Nat) :
    List StudentRecord :=
  dbUpdate db user_id fun r => { r with certificateNotified := true }

/-- database.get_verified_students_for_job: all rows with payment status
verified. -/
def get_verified_students_for_job (db : List StudentRecord) : List StudentRecord :=
  db.filter fun r => r.paymentStatus == PaymentStatus.verified

/-- main.get_course_details: linear scan of the catalog by course name. -/
def get_course_details : List Course → String → Option Course
  | [], _ => Option.none
  | c :: t, course_name =>
      if c.name = course_name then some c else get_course_details t course_name

/-! ## The scheduler sweep (main.check_expiry_and_notify) -/

/-- State threaded through one sweep: the evolving table plus the user ids to
whom an expiry notice / a certificate-eligibility notice send was attempted. -/
structure SweepState where
  db : List StudentRecord
  expiryNotices : List Nat
  certNotices : List Nat
deriving DecidableEq, Repr

/-- The expiry half of the sweep loop body: if now is strictly past
`verificationDate + duration_days` and the row still exists, kick the student
(membership side effect, no table change), set the payment status to expired
and attempt the expiry notices. -/
def expiry_step (now uid expiryDate : Nat) (st : SweepState) : SweepState :=
  if expiryDate < now then
    match dbGet st.db uid with
    | some _ =>
        { st with db := update_payment_status_to_expired st.db uid,
                  expiryNotices := st.expiryNotices ++ [uid] }
    | Option.none => st
  else st

/-- The certificate-eligibility half of the sweep loop body: re-read the row;
if now is strictly past `verificationDate + certificate_wait_days`, the flag
is unset and the certificate status is none, attempt the eligibility send and
set `certificateNotified` only when the send succeeded (the source sets the
flag inside the `try` after `send_message`, so a raised delivery error leaves
it unset). -/
def cert_step (now : Nat) (sendOk : Nat → Bool) (uid eligDate : Nat)
    (st : SweepState) : SweepState :=
  match dbGet st.db uid with
  | Option.none => st
  | some info =>
      if eligDate < now ∧ info.certificateNotified = false ∧
          info.certificateStatus = CertStatus.none then
        if sendOk uid then
          { st with db := update_certificate_notified st.db uid,
                    certNotices := st.certNotices ++ [uid] }
        else { st with certNotices := st.certNotices ++ [uid] }
      else st

/-- One iteration of the sweep loop for one snapshot row `s`: resolve the
course (skip the row when missing), then run the expiry check followed by the
eligibility check.  A verified row always carries a verification date in the
source (it is set by `verify`); on a NULL date `strptime` would raise, which
is modelled by skipping the row. -/
def process_student (catalog : List Course) (now : Nat) (sendOk : Nat → Bool)
    (st : SweepState) (s : StudentRecord) : SweepState :=
  match get_course_details catalog s.courseSelected with
  | Option.none => st
  | some cd =>
      match s.verificationDate with
      | Option.none => st
      | some v =>
          cert_step now sendOk s.userId (v + cd.certificate_wait_days * secondsPerDay)
            (expiry_step now s.userId (v + cd.duration_days * secondsPerDay) st)

/-- main.check_expiry_and_notify: snapshot the verified rows, then run the
loop body over each of them in order. -/
def check_expiry_and_notify (catalog : List Course) (now : Nat)
    (sendOk : Nat → Bool) (db : List StudentRecord) : SweepState :=
  (get_verified_students_for_job db).foldl (process_student catalog now sendOk)
    { db := db, expiryNotices := [], certNotices := [] }

/-! ## Admin verify command (main.verify) -/

inductive VerifyReply
  | notFound
  | alreadyVerified
  | courseNotFound
  | success
  | partialFailure
deriving DecidableEq, Repr

/-- main.verify for an authorized admin with a well-formed target id: look up
the row (not-found reply if absent), no-op when already verified, otherwise
persist verified plus `verificationDate = now` first, and only then resolve
the course and attempt the messaging side effects; `msgOk` tells whether the
unban/notify block succeeded.  No branch after the persist undoes it. -/
def verify (catalog : List Course) (now : Nat) (msgOk : Bool)
    (db : List StudentRecord) (uid : Nat) : List StudentRecord × VerifyReply :=
  match dbGet db uid with
  | Option.none => (db, VerifyReply.notFound)
  | some info =>
      if info.paymentStatus = PaymentStatus.verified then
        (db, VerifyReply.alreadyVerified)
      else
        let db1 := update_payment_status db uid PaymentStatus.verified (some now)
        match get_course_details catalog info.courseSelected with
        | Option.none => (db1, VerifyReply.courseNotFound)
        | some _ => if msgOk then (db1, VerifyReply.success)
                    else (db1, VerifyReply.partialFailure)

/-! ## Certificate workflow entry (main.certificate_entry) -/

/-- Outcome of main.certificate_entry.  Every constructor except
`enterWaitingReceipt` corresponds to `ConversationHandler.END`: the handler
replies and no session state is entered.  `enterWaitingReceipt` corresponds to
returning `WAITING_FOR_CERTIFICATE_RECEIPT`.  `invalidRecord` models the
exception `strptime` would raise on a verified row with no verification date
(unreachable for rows produced by `verify`). -/
inductive CertEntryResult
  | rejectedNotEnrolled
  | courseNotFound
  | invalidRecord
  | notYetEligible (daysLeft : Nat)
  | enterWaitingReceipt
deriving DecidableEq, Repr

/-- main.certificate_entry: reject unless the caller has a row with payment
status verified; resolve the course; refuse with the day count
`(cert_eligible_date - now).days + 1` while now is strictly before the
eligibility date; otherwise advance to waiting for the certificate receipt. -/
def certificate_entry (catalog : List Course) (now : Nat)
    (db : List StudentRecord) (uid : Nat) : CertEntryResult :=
  match dbGet db uid with
  | Option.none => CertEntryResult.rejectedNotEnrolled
  | some info =>
      if info.paymentStatus ≠ PaymentStatus.verified then
        CertEntryResult.rejectedNotEnrolled
      else
        match get_course_details catalog info.courseSelected with
        | Option.none => CertEntryResult.courseNotFound
        | some cd =>
            match info.verificationDate with
            | Option.none => CertEntryResult.invalidRecord
            | some v =>
                let elig := v + cd.certificate_wait_days * secondsPerDay
                if now < elig then
                  CertEntryResult.notYetEligible ((elig - now) / secondsPerDay + 1)
                else CertEntryResult.enterWaitingReceipt

/-! ## Concrete sample data used to evaluate the definitions -/

def pyCourse : Course :=
  { name := "Python", price := 1000, group_id := -100, duration_days := 30,
    certificate_price := 200, certificate_wait_days := 10 }

def sampleCatalog : List Course := [pyCourse]

/-- A verified student of the Python course, verified at time 0, certificate
status none, not yet notified. -/
def aliceV : StudentRecord :=
  { userId := 1, fullName := "Alice", phoneNumber := "0912345678",
    courseSelected := "Python", paymentReceipt := some 11,
    paymentStatus := PaymentStatus.verified, chatId := 501,
    verificationDate := some 0, certificateStatus := CertStatus.none,
    certificateReceipt := Option.none, certificateNotified := false }

def bobV : StudentRecord := { aliceV with userId := 2, fullName := "Bob", chatId := 502 }

def alicePending : StudentRecord := { aliceV with paymentStatus := PaymentStatus.pending }

def aliceDeniedCert : StudentRecord := { aliceV with certificateStatus := CertStatus.denied }

def dbNotified : List StudentRecord := [{ aliceV with certificateNotified := true }]

/-- Delivery succeeds only for user id 2 (models a raised send error for the
others). -/
def sendOkBob : Nat → Bool := fun u => u == 2

/-! ## Basic lookup/update lemmas -/

theorem dbGet_userId {db : List StudentRecord} {uid : Nat} {r : StudentRecord}
    (h : dbGet db uid = some r) : r.userId = uid := by
  induction db with
  | nil => simp [dbGet] at h
  | cons a t ih =>
    by_cases hc : a.userId = uid
    · rw [dbGet, if_pos hc] at h
      cases h
      exact hc
    · rw [dbGet, if_neg hc] at h
      exact ih h

theorem dbGet_mem {db : List StudentRecord} {uid : Nat} {r : StudentRecord}
    (h : dbGet db uid = some r) : r ∈ db := by
  induction db with
  | nil => simp [dbGet] at h
  | cons a t ih =>
    by_cases hc : a.userId = uid
    · rw [dbGet, if_pos hc] at h
      cases h
      exact List.mem_cons_self _ _
    · rw [dbGet, if_neg hc] at h
      exact List.mem_cons_of_mem _ (ih h)

theorem dbGet_dbUpdate_self (db : List StudentRecord) (u : Nat)
    (f : StudentRecord → StudentRecord) (hf : ∀ r, (f r).userId = r.userId) :
    dbGet (dbUpdate db u f) u = (dbGet db u).map f := by
  induction db with
  | nil => rfl
  | cons a t ih =>
    by_cases hc : a.userId = u
    · simp [dbUpdate, dbGet, hc, hf a]
    · simp [dbUpdate, dbGet, hc, ih]

theorem dbGet_dbUpdate_other (db : List StudentRecord) (u uid : Nat)
    (f : StudentRecord → StudentRecord) (hf : ∀ r, (f r).userId = r.userId)
    (h : uid ≠ u) :
    dbGet (dbUpdate db u f) uid = dbGet db uid := by
  induction db with
  | nil => rfl
  | cons a t ih =>
    by_cases hc : a.userId = u
    · have h2 : (f a).userId ≠ uid := by
        rw [hf a, hc]
        exact fun hh => h hh.symm
      have h3 : a.userId ≠ uid := by
        rw [hc]
        exact fun hh => h hh.symm
      simp only [dbUpdate, dbGet, if_pos hc]
      rw [if_neg h2, if_neg h3, ih]
    · simp only [dbUpdate, dbGet, if_neg hc]
      rw [ih]

theorem dbUpdate_map_userId (db : List StudentRecord) (u : Nat)
    (f : StudentRecord → StudentRecord) (hf : ∀ r, (f r).userId = r.userId) :
    (dbUpdate db u f).map StudentRecord.userId = db.map StudentRecord.userId := by
  induction db with
  | nil => rfl
  | cons a t ih =>
    by_cases hc : a.userId = u <;> simp [dbUpdate, hc, hf a, ih]

theorem dbGet_of_mem_nodup {db : List StudentRecord} {r : StudentRecord}
    (hnd : (db.map StudentRecord.userId).Nodup) (hr : r ∈ db) :
    dbGet db r.userId = some r := by
  induction db with
  | nil => cases hr
  | cons a t ih =>
    rw [List.map_cons] at hnd
    rcases List.mem_cons.mp hr with h | h
    · subst h
      simp [dbGet]
    · have hne : a.userId ≠ r.userId := by
        intro hh
        have hmem : r.userId ∈ t.map StudentRecord.userId :=
          List.mem_map.mpr ⟨r, h, rfl⟩
        exact (List.nodup_cons.mp hnd).1 (by rw [hh]; exact hmem)
      simp [dbGet, hne, ih (List.nodup_cons.mp hnd).2 h]

theorem dbGet_append_left {db l : List StudentRecord} {uid : Nat} {r : StudentRecord}
    (h : dbGet db uid = some r) : dbGet (db ++ l) uid = some r := by
  induction db with
  | nil => simp [dbGet] at h
  | cons a t ih =>
    by_cases hc : a.userId = uid
    · rw [dbGet, if_pos hc] at h
      simpa [dbGet, hc] using h
    · rw [dbGet, if_neg hc] at h
      simpa [dbGet, hc] using ih h

/-! ## Per-step lemmas about the sweep loop body -/

theorem expiry_step_other (now uid ed : Nat) (st : SweepState) (uid' : Nat)
    (h : uid' ≠ uid) :
    dbGet (expiry_step now uid ed st).db uid' = dbGet st.db uid'
    ∧ (expiry_step now uid ed st).certNotices = st.certNotices
    ∧ (expiry_step now uid ed st).expiryNotices.count uid'
        = st.expiryNotices.count uid' := by
  unfold expiry_step
  by_cases hlt : ed < now
  · rw [if_pos hlt]
    cases hg : dbGet st.db uid with
    | none => exact ⟨rfl, rfl, rfl⟩
    | some r =>
        refine ⟨?_, rfl, ?_⟩
        · exact dbGet_dbUpdate_other _ _ _ _ (fun _ => rfl) h
        · simp [h]
  · rw [if_neg hlt]
    exact ⟨rfl, rfl, rfl⟩

theorem cert_step_other (now : Nat) (sendOk : Nat → Bool) (uid ed : Nat)
    (st : SweepState) (uid' : Nat) (h : uid' ≠ uid) :
    dbGet (cert_step now sendOk uid ed st).db uid' = dbGet st.db uid'
    ∧ (cert_step now sendOk uid ed st).certNotices.count uid'
        = st.certNotices.count uid'
    ∧ (cert_step now sendOk uid ed st).expiryNotices = st.expiryNotices := by
  unfold cert_step
  cases hg : dbGet st.db uid with
  | none => exact ⟨rfl, rfl, rfl⟩
  | some info =>
      dsimp only
      by_cases hc : ed < now ∧ info.certificateNotified = false ∧
          info.certificateStatus = CertStatus.none
      · rw [if_pos hc]
        by_cases hs : sendOk uid = true
        · rw [if_pos hs]
          exact ⟨dbGet_dbUpdate_other _ _ _ _ (fun _ => rfl) h, by simp [h], rfl⟩
        · rw [if_neg hs]
          exact ⟨rfl, by simp [h], rfl⟩
      · rw [if_neg hc]
        exact ⟨rfl, rfl, rfl⟩

theorem process_student_other (catalog : List Course) (now : Nat)
    (sendOk : Nat → Bool) (st : SweepState) (s : StudentRecord) (uid : Nat)
    (h : s.userId ≠ uid) :
    dbGet (process_student catalog now sendOk st s).db uid = dbGet st.db uid
    ∧ (process_student catalog now sendOk st s).certNotices.count uid
        = st.certNotices.count uid
    ∧ (process_student catalog now sendOk st s).expiryNotices.count uid
        = st.expiryNotices.count uid := by
  unfold process_student
  cases hcd : get_course_details catalog s.courseSelected with
  | none => exact ⟨rfl, rfl, rfl⟩
  | some cd =>
      cases hv : s.verificationDate with
      | none => exact ⟨rfl, rfl, rfl⟩
      | some v =>
          have hne : uid ≠ s.userId := fun hh => h hh.symm
          obtain ⟨e1, e2, e3⟩ :=
            expiry_step_other now s.userId (v + cd.duration_days * secondsPerDay) st uid hne
          obtain ⟨c1, c2, c3⟩ :=
            cert_step_other now sendOk s.userId (v + cd.certificate_wait_days * secondsPerDay)
              (expiry_step now s.userId (v + cd.duration_days * secondsPerDay) st) uid hne
          refine ⟨c1.trans e1, ?_, ?_⟩
          · rw [c2, e2]
          · rw [c3, e3]

theorem expiry_step_self (now uid ed : Nat) (st : SweepState) (r : StudentRecord)
    (hr : dbGet st.db uid = some r) :
    dbGet (expiry_step now uid ed st).db uid
      = some (if ed < now then { r with paymentStatus := PaymentStatus.expired } else r)
    ∧ (expiry_step now uid ed st).certNotices = st.certNotices := by
  unfold expiry_step
  by_cases hlt : ed < now
  · rw [if_pos hlt, hr]
    dsimp only
    refine ⟨?_, rfl⟩
    unfold update_payment_status_to_expired
    rw [dbGet_dbUpdate_self st.db uid
      (fun r => { r with paymentStatus := PaymentStatus.expired }) (fun _ => rfl), hr,
      if_pos hlt]
    rfl
  · rw [if_neg hlt, if_neg hlt]
    exact ⟨hr, rfl⟩

theorem cert_step_self (now : Nat) (sendOk : Nat → Bool) (uid ed : Nat)
    (st : SweepState) (r : StudentRecord) (hr : dbGet st.db uid = some r) :
    dbGet (cert_step now sendOk uid ed st).db uid
      = some (if ed < now ∧ r.certificateNotified = false ∧
                r.certificateStatus = CertStatus.none then
                (if sendOk uid then { r with certificateNotified := true } else r)
              else r)
    ∧ (cert_step now sendOk uid ed st).certNotices
        = st.certNotices ++ (if ed < now ∧ r.certificateNotified = false ∧
            r.certificateStatus = CertStatus.none then [uid] else [])
    ∧ (cert_step now sendOk uid ed st).expiryNotices = st.expiryNotices := by
  unfold cert_step
  rw [hr]
  dsimp only
  by_cases hc : ed < now ∧ r.certificateNotified = false ∧
      r.certificateStatus = CertStatus.none
  · rw [if_pos hc, if_pos hc, if_pos hc]
    by_cases hs : sendOk uid = true
    · rw [if_pos hs, if_pos hs]
      refine ⟨?_, rfl, rfl⟩
      unfold update_certificate_notified
      rw [dbGet_dbUpdate_self st.db uid
        (fun r => { r with certificateNotified := true }) (fun _ => rfl), hr]
      rfl
    · rw [if_neg hs, if_neg hs]
      exact ⟨hr, rfl, rfl⟩
  · rw [if_neg hc, if_neg hc, if_neg hc]
    exact ⟨hr, by simp, rfl⟩

theorem process_student_self (catalog : List Course) (now : Nat) (sendOk : Nat → Bool)
    (st : SweepState) (s r : StudentRecord) (cd : Course) (v : Nat)
    (hcd : get_course_details catalog s.courseSelected = some cd)
    (hv : s.verificationDate = some v)
    (hr : dbGet st.db s.userId = some r) :
    dbGet (process_student catalog now sendOk st s).db s.userId
      = some { r with
          paymentStatus := if v + cd.duration_days * secondsPerDay < now
            then PaymentStatus.expired else r.paymentStatus,
          certificateNotified := r.certificateNotified ||
            (decide (v + cd.certificate_wait_days * secondsPerDay < now ∧
                r.certificateNotified = false ∧
                r.certificateStatus = CertStatus.none) && sendOk s.userId) }
    ∧ (process_student catalog now sendOk st s).certNotices
        = st.certNotices ++ (if v + cd.certificate_wait_days * secondsPerDay < now ∧
            r.certificateNotified = false ∧ r.certificateStatus = CertStatus.none
            then [s.userId] else []) := by
  unfold process_student
  rw [hcd, hv]
  dsimp only
  obtain ⟨ruid, rfn, rpn, rcs, rpr, rps, rci, rvd, rcse, rcre, rcn⟩ := r
  obtain ⟨he1, he2⟩ :=
    expiry_step_self now s.userId (v + cd.duration_days * secondsPerDay) st _ hr
  obtain ⟨hc1, hc2, _⟩ :=
    cert_step_self now sendOk s.userId (v + cd.certificate_wait_days * secondsPerDay)
      (expiry_step now s.userId (v + cd.duration_days * secondsPerDay) st) _ he1
  refine ⟨?_, ?_⟩
  · rw [hc1]
    by_cases hexp : v + cd.duration_days * secondsPerDay < now <;>
    by_cases hcert : v + cd.certificate_wait_days * secondsPerDay < now ∧
        rcn = false ∧ rcse = CertStatus.none <;>
    by_cases hsend : sendOk s.userId = true <;>
      simp [hexp, hcert, hsend]
  · rw [hc2, he2]
    by_cases hexp : v + cd.duration_days * secondsPerDay < now <;> simp [hexp]

/-! ## Folding the loop body over the snapshot -/

theorem foldl_process_other (catalog : List Course) (now : Nat) (sendOk : Nat → Bool)
    (l : List StudentRecord) (st : SweepState) (uid : Nat)
    (h : ∀ s ∈ l, s.userId ≠ uid) :
    dbGet (l.foldl (process_student catalog now sendOk) st).db uid = dbGet st.db uid
    ∧ (l.foldl (process_student catalog now sendOk) st).certNotices.count uid
        = st.certNotices.count uid
    ∧ (l.foldl (process_student catalog now sendOk) st).expiryNotices.count uid
        = st.expiryNotices.count uid := by
  induction l generalizing st with
  | nil => exact ⟨rfl, rfl, rfl⟩
  | cons a t ih =>
      rw [List.foldl_cons]
      obtain ⟨p1, p2, p3⟩ := process_student_other catalog now sendOk st a uid
        (h a (List.mem_cons_self a t))
      obtain ⟨q1, q2, q3⟩ := ih (process_student catalog now sendOk st a)
        (fun s hs => h s (List.mem_cons_of_mem a hs))
      exact ⟨q1.trans p1, q2.trans p2, q3.trans p3⟩

theorem expiry_step_keys (now uid ed : Nat) (st : SweepState) :
    (expiry_step now uid ed st).db.map StudentRecord.userId
      = st.db.map StudentRecord.userId := by
  unfold expiry_step
  by_cases hlt : ed < now
  · rw [if_pos hlt]
    cases hg : dbGet st.db uid with
    | none => rfl
    | some r =>
        exact dbUpdate_map_userId st.db uid
          (fun r => { r with paymentStatus := PaymentStatus.expired }) (fun _ => rfl)
  · rw [if_neg hlt]

theorem cert_step_keys (now : Nat) (sendOk : Nat → Bool) (uid ed : Nat)
    (st : SweepState) :
    (cert_step now sendOk uid ed st).db.map StudentRecord.userId
      = st.db.map StudentRecord.userId := by
  unfold cert_step
  cases hg : dbGet st.db uid with
  | none => rfl
  | some info =>
      dsimp only
      by_cases hc : ed < now ∧ info.certificateNotified = false ∧
          info.certificateStatus = CertStatus.none
      · rw [if_pos hc]
        by_cases hs : sendOk uid = true
        · rw [if_pos hs]
          exact dbUpdate_map_userId st.db uid
            (fun r => { r with certificateNotified := true }) (fun _ => rfl)
        · rw [if_neg hs]
      · rw [if_neg hc]

theorem process_student_keys (catalog : List Course) (now : Nat) (sendOk : Nat → Bool)
    (st : SweepState) (s : StudentRecord) :
    (process_student catalog now sendOk st s).db.map StudentRecord.userId
      = st.db.map StudentRecord.userId := by
  unfold process_student
  cases hcd : get_course_details catalog s.courseSelected with
  | none => rfl
  | some cd =>
      cases hv : s.verificationDate with
      | none => rfl
      | some v =>
          dsimp only
          rw [cert_step_keys, expiry_step_keys]

theorem foldl_process_keys (catalog : List Course) (now : Nat) (sendOk : Nat → Bool)
    (l : List StudentRecord) (st : SweepState) :
    (l.foldl (process_student catalog now sendOk) st).db.map StudentRecord.userId
      = st.db.map StudentRecord.userId := by
  induction l generalizing st with
  | nil => rfl
  | cons a t ih =>
      rw [List.foldl_cons, ih, process_student_keys]

theorem sweep_keys (catalog : List Course) (now : Nat) (sendOk : Nat → Bool)
    (db : List StudentRecord) :
    (check_expiry_and_notify catalog now sendOk db).db.map StudentRecord.userId
      = db.map StudentRecord.userId := by
  unfold check_expiry_and_notify
  rw [foldl_process_keys]

/-- Characterization of one sweep at a verified row `r` of a table with unique
user ids: the eligibility send is attempted exactly once when the strict
eligibility condition holds (and never otherwise), and the row afterwards has
its payment status expired exactly under the strict expiry condition and its
notified flag set exactly when the condition held and the send succeeded. -/
theorem sweep_cert_spec (catalog : List Course) (now : Nat) (sendOk : Nat → Bool)
    (db : List StudentRecord) (r : StudentRecord) (cd : Course) (v : Nat)
    (hnd : (db.map StudentRecord.userId).Nodup)
    (hr : r ∈ db) (hpv : r.paymentStatus = PaymentStatus.verified)
    (hv : r.verificationDate = some v)
    (hcd : get_course_details catalog r.courseSelected = some cd) :
    (check_expiry_and_notify catalog now sendOk db).certNotices.count r.userId
      = (if v + cd.certificate_wait_days * secondsPerDay < now ∧
           r.certificateNotified = false ∧ r.certificateStatus = CertStatus.none
         then 1 else 0)
    ∧ dbGet (check_expiry_and_notify catalog now sendOk db).db r.userId
        = some { r with
            paymentStatus := if v + cd.duration_days * secondsPerDay < now
              then PaymentStatus.expired else r.paymentStatus,
            certificateNotified := r.certificateNotified ||
              (decide (v + cd.certificate_wait_days * secondsPerDay < now ∧
                  r.certificateNotified = false ∧
                  r.certificateStatus = CertStatus.none) && sendOk r.userId) } := by
  have hrl : r ∈ get_verified_students_for_job db := by
    unfold get_verified_students_for_job
    exact List.mem_filter.mpr ⟨hr, by simp [hpv]⟩
  have hsub : List.Sublist ((get_verified_students_for_job db).map StudentRecord.userId)
      (db.map StudentRecord.userId) :=
    ((List.filter_sublist _).map _)
  have hlnd : ((get_verified_students_for_job db).map StudentRecord.userId).Nodup :=
    List.Nodup.sublist hsub hnd
  obtain ⟨l₁, l₂, hsplit⟩ := List.append_of_mem hrl
  have hmap : (l₁.map StudentRecord.userId ++
      r.userId :: l₂.map StudentRecord.userId).Nodup := by
    rw [hsplit] at hlnd
    simpa using hlnd
  have h1 : ∀ s ∈ l₁, s.userId ≠ r.userId := by
    intro s hs hh
    exact (List.nodup_append.mp hmap).2.2
      (List.mem_map.mpr ⟨s, hs, rfl⟩)
      (by rw [hh]; exact List.mem_cons_self _ _)
  have h2 : ∀ s ∈ l₂, s.userId ≠ r.userId := by
    intro s hs hh
    exact (List.nodup_cons.mp (List.nodup_append.mp hmap).2.1).1
      (by rw [← hh]; exact List.mem_map.mpr ⟨s, hs, rfl⟩)
  have hget : dbGet db r.userId = some r := dbGet_of_mem_nodup hnd hr
  unfold check_expiry_and_notify
  rw [hsplit, List.foldl_append, List.foldl_cons]
  obtain ⟨f1, f2, _⟩ := foldl_process_other catalog now sendOk l₁
    { db := db, expiryNotices := [], certNotices := [] } r.userId h1
  have hr1 : dbGet (List.foldl (process_student catalog now sendOk)
      { db := db, expiryNotices := [], certNotices := [] } l₁).db r.userId = some r :=
    f1.trans hget
  obtain ⟨p1, p2⟩ := process_student_self catalog now sendOk
    (List.foldl (process_student catalog now sendOk)
      { db := db, expiryNotices := [], certNotices := [] } l₁) r r cd v hcd hv hr1
  obtain ⟨g1, g2, _⟩ := foldl_process_other catalog now sendOk l₂
    (process_student catalog now sendOk
      (List.foldl (process_student catalog now sendOk)
        { db := db, expiryNotices := [], certNotices := [] } l₁) r) r.userId h2
  constructor
  · rw [g2, p2, List.count_append]
    simp only at f2
    rw [f2]
    by_cases hc : v + cd.certificate_wait_days * secondsPerDay < now ∧
        r.certificateNotified = false ∧ r.certificateStatus = CertStatus.none <;>
      simp [hc]
  · rw [g1, p1]

/-! ## Monotonicity of the notified flag under sweeps -/

theorem dbUpdate_keeps_cn_true (db : List StudentRecord) (u uid : Nat)
    (f : StudentRecord → StudentRecord) (hf : ∀ r, (f r).userId = r.userId)
    (hcn : ∀ r, r.certificateNotified = true → (f r).certificateNotified = true)
    (h : (dbGet db uid).map StudentRecord.certificateNotified = some true) :
    (dbGet (dbUpdate db u f) uid).map StudentRecord.certificateNotified = some true := by
  by_cases huu : uid = u
  · subst huu
    rw [dbGet_dbUpdate_self db uid f hf]
    cases hg : dbGet db uid with
    | none => rw [hg] at h; simp at h
    | some rr =>
        rw [hg] at h
        simp only [Option.map_some', Option.some.injEq] at h
        simp [hcn rr h]
  · rw [dbGet_dbUpdate_other db u uid f hf huu]
    exact h

theorem expiry_step_cn (now uid ed : Nat) (st : SweepState) (uid' : Nat)
    (h : (dbGet st.db uid').map StudentRecord.certificateNotified = some true) :
    (dbGet (expiry_step now uid ed st).db uid').map StudentRecord.certificateNotified
      = some true := by
  unfold expiry_step
  by_cases hlt : ed < now
  · rw [if_pos hlt]
    cases hg : dbGet st.db uid with
    | none => exact h
    | some rr =>
        dsimp only
        unfold update_payment_status_to_expired
        exact dbUpdate_keeps_cn_true st.db uid uid' _ (fun _ => rfl) (fun _ hc => hc) h
  · rw [if_neg hlt]
    exact h

theorem cert_step_cn (now : Nat) (sendOk : Nat → Bool) (uid ed : Nat)
    (st : SweepState) (uid' : Nat)
    (h : (dbGet st.db uid').map StudentRecord.certificateNotified = some true) :
    (dbGet (cert_step now sendOk uid ed st).db uid').map StudentRecord.certificateNotified
      = some true := by
  unfold cert_step
  cases hg : dbGet st.db uid with
  | none => exact h
  | some info =>
      dsimp only
      by_cases hc : ed < now ∧ info.certificateNotified = false ∧
          info.certificateStatus = CertStatus.none
      · rw [if_pos hc]
        by_cases hs : sendOk uid = true
        · rw [if_pos hs]
          unfold update_certificate_notified
          exact dbUpdate_keeps_cn_true st.db uid uid' _ (fun _ => rfl) (fun _ _ => rfl) h
        · rw [if_neg hs]
          exact h
      · rw [if_neg hc]
        exact h

theorem process_student_cn (catalog : List Course) (now : Nat) (sendOk : Nat → Bool)
    (st : SweepState) (s : StudentRecord) (uid' : Nat)
    (h : (dbGet st.db uid').map StudentRecord.certificateNotified = some true) :
    (dbGet (process_student catalog now sendOk st s).db uid').map
      StudentRecord.certificateNotified = some true := by
  unfold process_student
  cases hcd : get_course_details catalog s.courseSelected with
  | none => exact h
  | some cd =>
      cases hv : s.verificationDate with
      | none => exact h
      | some v =>
          dsimp only
          exact cert_step_cn _ _ _ _ _ _ (expiry_step_cn _ _ _ _ _ h)

theorem sweep_cn_mono (catalog : List Course) (now : Nat) (sendOk : Nat → Bool)
    (db : List StudentRecord) (uid : Nat)
    (h : (dbGet db uid).map StudentRecord.certificateNotified = some true) :
    (dbGet (check_expiry_and_notify catalog now sendOk db).db uid).map
      StudentRecord.certificateNotified = some true := by
  unfold check_expiry_and_notify
  generalize get_verified_students_for_job db = l
  suffices hgen : ∀ (l : List StudentRecord) (st : SweepState),
      (dbGet st.db uid).map StudentRecord.certificateNotified = some true →
      (dbGet (l.foldl (process_student catalog now sendOk) st).db uid).map
        StudentRecord.certificateNotified = some true by
    exact hgen l { db := db, expiryNotices := [], certNotices := [] } h
  intro l
  induction l with
  | nil => intro st hst; exact hst
  | cons a t ih =>
      intro st hst
      rw [List.foldl_cons]
      exact ih _ (process_student_cn catalog now sendOk st a uid hst)

/-! ## Helper lemmas about certificate_entry and verify -/

theorem certificate_entry_no_record (catalog : List Course) (now : Nat)
    (db : List StudentRecord) (uid : Nat) (h : dbGet db uid = Option.none) :
    certificate_entry catalog now db uid = CertEntryResult.rejectedNotEnrolled := by
  unfold certificate_entry
  rw [h]

theorem certificate_entry_not_verified (catalog : List Course) (now : Nat)
    (db : List StudentRecord) (uid : Nat) (r : StudentRecord)
    (h : dbGet db uid = some r) (hnv : r.paymentStatus ≠ PaymentStatus.verified) :
    certificate_entry catalog now db uid = CertEntryResult.rejectedNotEnrolled := by
  unfold certificate_entry
  rw [h]
  dsimp only
  rw [if_pos hnv]

theorem certificate_entry_too_early (catalog : List Course) (now : Nat)
    (db : List StudentRecord) (uid : Nat) (r : StudentRecord) (cd : Course) (v : Nat)
    (h : dbGet db uid = some r) (hpv : r.paymentStatus = PaymentStatus.verified)
    (hcd : get_course_details catalog r.courseSelected = some cd)
    (hv : r.verificationDate = some v)
    (hlt : now < v + cd.certificate_wait_days * secondsPerDay) :
    certificate_entry catalog now db uid
      = CertEntryResult.notYetEligible
          ((v + cd.certificate_wait_days * secondsPerDay - now) / secondsPerDay + 1) := by
  unfold certificate_entry
  rw [h]
  dsimp only
  rw [if_neg (not_not_intro hpv), hcd]
  dsimp only
  rw [hv]
  dsimp only
  rw [if_pos hlt]

theorem certificate_entry_eligible (catalog : List Course) (now : Nat)
    (db : List StudentRecord) (uid : Nat) (r : StudentRecord) (cd : Course) (v : Nat)
    (h : dbGet db uid = some r) (hpv : r.paymentStatus = PaymentStatus.verified)
    (hcd : get_course_details catalog r.courseSelected = some cd)
    (hv : r.verificationDate = some v)
    (hge : v + cd.certificate_wait_days * secondsPerDay ≤ now) :
    certificate_entry catalog now db uid = CertEntryResult.enterWaitingReceipt := by
  unfold certificate_entry
  rw [h]
  dsimp only
  rw [if_neg (not_not_intro hpv), hcd]
  dsimp only
  rw [hv]
  dsimp only
  rw [if_neg (not_lt.mpr hge)]

theorem verify_already (catalog : List Course) (now : Nat) (msgOk : Bool)
    (db : List StudentRecord) (uid : Nat) (r : StudentRecord)
    (h : dbGet db uid = some r) (hpv : r.paymentStatus = PaymentStatus.verified) :
    verify catalog now msgOk db uid = (db, VerifyReply.alreadyVerified) := by
  unfold verify
  rw [h]
  dsimp only
  rw [if_pos hpv]

theorem verify_db_of_not_verified (catalog : List Course) (now : Nat) (msgOk : Bool)
    (db : List StudentRecord) (uid : Nat) (r : StudentRecord)
    (h : dbGet db uid = some r) (hnv : r.paymentStatus ≠ PaymentStatus.verified) :
    (verify catalog now msgOk db uid).1
      = update_payment_status db uid PaymentStatus.verified (some now) := by
  unfold verify
  rw [h]
  dsimp only
  rw [if_neg hnv]
  cases hcd : get_course_details catalog r.courseSelected with
  | none => rfl
  | some cd =>
      dsimp only
      by_cases hm : msgOk = true
      · rw [if_pos hm]
      · rw [if_neg hm]

theorem verify_db_cases (catalog : List Course) (now : Nat) (msgOk : Bool)
    (db : List StudentRecord) (uid : Nat) :
    (verify catalog now msgOk db uid).1 = db ∨
    (verify catalog now msgOk db uid).1
      = update_payment_status db uid PaymentStatus.verified (some now) := by
  unfold verify
  cases hg : dbGet db uid with
  | none => exact Or.inl rfl
  | some info =>
      dsimp only
      by_cases hv : info.paymentStatus = PaymentStatus.verified
      · rw [if_pos hv]
        exact Or.inl rfl
      · rw [if_neg hv]
        cases hcd : get_course_details catalog info.courseSelected with
        | none => exact Or.inr rfl
        | some cd =>
            dsimp only
            by_cases hm : msgOk = true
            · rw [if_pos hm]
              exact Or.inr rfl
            · rw [if_neg hm]
              exact Or.inr rfl

theorem update_payment_status_self (db : List StudentRecord) (uid : Nat)
    (status : PaymentStatus) (d : Nat) :
    dbGet (update_payment_status db uid status (some d)) uid
      = (dbGet db uid).map
          (fun r => { r with paymentStatus := status, verificationDate := some d }) := by
  unfold update_payment_status
  exact dbGet_dbUpdate_self db uid _ (fun _ => rfl)

theorem add_certificate_receipt_self (db : List StudentRecord) (uid img : Nat) :
    dbGet (add_certificate_receipt db uid img) uid
      = (dbGet db uid).map
          (fun r => { r with certificateStatus := CertStatus.pending,
                             certificateReceipt := some img }) := by
  unfold add_certificate_receipt
  exact dbGet_dbUpdate_self db uid _ (fun _ => rfl)

theorem update_certificate_status_self (db : List StudentRecord) (uid : Nat)
    (c : CertStatus) :
    dbGet (update_certificate_status db uid c) uid
      = (dbGet db uid).map (fun r => { r with certificateStatus := c }) := by
  unfold update_certificate_status
  exact dbGet_dbUpdate_self db uid _ (fun _ => rfl)

theorem sweep_untouched (catalog : List Course) (now : Nat) (sendOk : Nat → Bool)
    (db : List StudentRecord) (uid : Nat)
    (h : ∀ s ∈ get_verified_students_for_job db, s.userId ≠ uid) :
    dbGet (check_expiry_and_notify catalog now sendOk db).db uid = dbGet db uid
    ∧ (check_expiry_and_notify catalog now sendOk db).certNotices.count uid = 0
    ∧ (check_expiry_and_notify catalog now sendOk db).expiryNotices.count uid = 0 := by
  unfold check_expiry_and_notify
  obtain ⟨f1, f2, f3⟩ := foldl_process_other catalog now sendOk
    (get_verified_students_for_job db)
    { db := db, expiryNotices := [], certNotices := [] } uid h
  exact ⟨f1, by simpa using f2, by simpa using f3⟩

theorem snapshot_misses (db : List StudentRecord) (uid : Nat)
    (hnd : (db.map StudentRecord.userId).Nodup)
    (r₁ : StudentRecord) (hg : dbGet db uid = some r₁)
    (hnv : r₁.paymentStatus ≠ PaymentStatus.verified) :
    ∀ s ∈ get_verified_students_for_job db, s.userId ≠ uid := by
  intro s hs hh
  obtain ⟨hmem, hps⟩ := List.mem_filter.mp hs
  have hgs : dbGet db s.userId = some s := dbGet_of_mem_nodup hnd hmem
  rw [hh, hg] at hgs
  cases hgs
  exact hnv (by simpa using hps)

theorem update_payment_status_keeps_cn (db : List StudentRecord) (uid : Nat)
    (status : PaymentStatus) (vd : Option Nat) (uid' : Nat)
    (h : (dbGet db uid').map StudentRecord.certificateNotified = some true) :
    (dbGet (update_payment_status db uid status vd) uid').map
      StudentRecord.certificateNotified = some true := by
  unfold update_payment_status
  cases vd with
  | none => exact dbUpdate_keeps_cn_true db uid uid' _ (fun _ => rfl) (fun _ hc => hc) h
  | some d => exact dbUpdate_keeps_cn_true db uid uid' _ (fun _ => rfl) (fun _ hc => hc) h

/-! ## Claim C1 -/

/-- C1: counterexample.  The claim says `certificateNotified` is monotonic
under every core operation including enrollment submission; but
`add_student` for an existing user (re-enrollment) resets the flag from true
back to false (`certificate_notified = 0` in the UPDATE of database.py). -/
theorem C1_counterexample :
    ((dbGet dbNotified 1).map StudentRecord.certificateNotified = some true)
    ∧ ((dbGet (add_student dbNotified 1 "Alice" "0912345678" "Python" 99 501) 1).map
        StudentRecord.certificateNotified = some false) := by
  constructor <;> rfl

/-- C1 (amended): `certificateNotified`, once true, is preserved by the
scheduler sweep, the admin verify command, every payment/certificate status
write and the notified-flag write, and by an enrollment submission for a
DIFFERENT user; only `add_student` for the same user (re-enrollment) resets
it to false. -/
theorem C1_notified_monotonic (catalog : List Course) (now : Nat)
    (sendOk : Nat → Bool) (msgOk : Bool) (db : List StudentRecord)
    (uid uid2 : Nat) (ps : PaymentStatus) (cs : CertStatus) (vd : Option Nat)
    (img : Nat) (n p c : String) (chat : Int)
    (h : (dbGet db uid).map StudentRecord.certificateNotified = some true) :
    ((dbGet (check_expiry_and_notify catalog now sendOk db).db uid).map
        StudentRecord.certificateNotified = some true)
    ∧ ((dbGet (verify catalog now msgOk db uid2).1 uid).map
        StudentRecord.certificateNotified = some true)
    ∧ ((dbGet (update_payment_status db uid2 ps vd) uid).map
        StudentRecord.certificateNotified = some true)
    ∧ ((dbGet (update_payment_status_to_expired db uid2) uid).map
        StudentRecord.certificateNotified = some true)
    ∧ ((dbGet (update_certificate_status db uid2 cs) uid).map
        StudentRecord.certificateNotified = some true)
    ∧ ((dbGet (add_certificate_receipt db uid2 img) uid).map
        StudentRecord.certificateNotified = some true)
    ∧ ((dbGet (update_certificate_notified db uid2) uid).map
        StudentRecord.certificateNotified = some true)
    ∧ (uid2 ≠ uid → (dbGet (add_student db uid2 n p c img chat) uid).map
        StudentRecord.certificateNotified = some true) := by
  refine ⟨sweep_cn_mono catalog now sendOk db uid h, ?_, ?_, ?_, ?_, ?_, ?_, ?_⟩
  · rcases verify_db_cases catalog now msgOk db uid2 with hc | hc <;> rw [hc]
    · exact h
    · exact update_payment_status_keeps_cn db uid2 PaymentStatus.verified (some now) uid h
  · exact update_payment_status_keeps_cn db uid2 ps vd uid h
  · exact dbUpdate_keeps_cn_true db uid2 uid _ (fun _ => rfl) (fun _ hc => hc) h
  · exact dbUpdate_keeps_cn_true db uid2 uid _ (fun _ => rfl) (fun _ hc => hc) h
  · exact dbUpdate_keeps_cn_true db uid2 uid _ (fun _ => rfl) (fun _ hc => hc) h
  · exact dbUpdate_keeps_cn_true db uid2 uid _ (fun _ => rfl) (fun _ _ => rfl) h
  · intro hne
    unfold add_student
    cases hg2 : dbGet db uid2 with
    | none =>
        cases hget : dbGet db uid with
        | none => rw [hget] at h; simp at h
        | some rr =>
            rw [dbGet_append_left hget]
            rw [hget] at h
            exact h
    | some rr2 =>
        dsimp only
        rw [dbGet_dbUpdate_other db uid2 uid
          (fun r => { r with
                      fullName := n, phoneNumber := p, courseSelected := c,
                      paymentReceipt := some img,
                      paymentStatus := PaymentStatus.pending,
                      chatId := chat, verificationDate := Option.none,
                      certificateStatus := CertStatus.none,
                      certificateReceipt := Option.none,
                      certificateNotified := false })
          (fun _ => rfl) (fun hh => hne hh.symm)]
        exact h

/-- C1 witness: the amended monotonicity applied at a concrete table. -/
theorem C1_witness :
    (dbGet (check_expiry_and_notify sampleCatalog 5 (fun _ => true) dbNotified).db 1).map
      StudentRecord.certificateNotified = some true :=
  (C1_notified_monotonic sampleCatalog 5 (fun _ => true) true dbNotified 1 2
    PaymentStatus.denied CertStatus.denied Option.none 7 "N" "P" "C" 9 (by decide)).1

/-! ## Claim C2 -/

/-- C2: the code evaluated at the failing input.  The claimed guarded write
does not exist: `update_payment_status_to_expired` is a plain
`UPDATE ... WHERE user_id = ?` and flips a row whose current payment status
is denied (not the required precondition verified) to expired — an
unconditional overwrite. -/
theorem C2_unguarded_write_eval :
    ((dbGet [{ aliceV with paymentStatus := PaymentStatus.denied }] 1).map
        StudentRecord.paymentStatus = some PaymentStatus.denied)
    ∧ ((dbGet (update_payment_status_to_expired
          [{ aliceV with paymentStatus := PaymentStatus.denied }] 1) 1).map
        StudentRecord.paymentStatus = some PaymentStatus.expired) := by
  constructor <;> rfl

/-! ## Claim C3 -/

/-- C3: counterexample.  The claim says the eligibility notice fires when
`now ≥ verificationDate + certificateWaitDays`, in particular at exact
equality.  Here a verified, unnotified, certificate-none record reaches its
eligibility date exactly (now = 10 days, wait = 10 days, verified at 0), all
sends succeed, yet the sweep emits no notice and leaves the flag false,
because the source compares with strict `>`. -/
theorem C3_counterexample :
    (aliceV.paymentStatus = PaymentStatus.verified
      ∧ aliceV.verificationDate = some 0
      ∧ aliceV.certificateNotified = false
      ∧ aliceV.certificateStatus = CertStatus.none
      ∧ 0 + pyCourse.certificate_wait_days * secondsPerDay = 10 * secondsPerDay)
    ∧ (check_expiry_and_notify sampleCatalog (10 * secondsPerDay) (fun _ => true)
        [aliceV]).certNotices = []
    ∧ ((dbGet (check_expiry_and_notify sampleCatalog (10 * secondsPerDay) (fun _ => true)
        [aliceV]).db 1).map StudentRecord.certificateNotified = some false) := by
  refine ⟨⟨rfl, rfl, rfl, rfl, rfl⟩, ?_, ?_⟩ <;> rfl

/-- C3 (amended): with delivery succeeding, for every verified record of a
table with unique user ids whose course exists, the sweep attempts the
eligibility notice exactly once when `now` is STRICTLY past
`verificationDate + certificateWaitDays` and the flag is unset and the
certificate status is none — and never otherwise (in particular not when now
equals the eligibility date) — and the flag afterwards is set exactly when
the notice fired; hence at most one notice per record across sweeps. -/
theorem C3_notice_strict (catalog : List Course) (now : Nat)
    (db : List StudentRecord) (r : StudentRecord) (cd : Course) (v : Nat)
    (hnd : (db.map StudentRecord.userId).Nodup)
    (hr : r ∈ db) (hpv : r.paymentStatus = PaymentStatus.verified)
    (hv : r.verificationDate = some v)
    (hcd : get_course_details catalog r.courseSelected = some cd) :
    ((check_expiry_and_notify catalog now (fun _ => true) db).certNotices.count r.userId
      = if v + cd.certificate_wait_days * secondsPerDay < now ∧
          r.certificateNotified = false ∧ r.certificateStatus = CertStatus.none
        then 1 else 0)
    ∧ ((dbGet (check_expiry_and_notify catalog now (fun _ => true) db).db r.userId).map
        StudentRecord.certificateNotified
      = some (r.certificateNotified ||
          decide (v + cd.certificate_wait_days * secondsPerDay < now ∧
            r.certificateNotified = false ∧ r.certificateStatus = CertStatus.none))) := by
  obtain ⟨h1, h2⟩ := sweep_cert_spec catalog now (fun _ => true) db r cd v hnd hr hpv hv hcd
  refine ⟨h1, ?_⟩
  rw [h2]
  simp

/-- C3 witness: one second past the eligibility date the notice is attempted
exactly once. -/
theorem C3_witness :
    (check_expiry_and_notify sampleCatalog (10 * secondsPerDay + 1) (fun _ => true)
      [aliceV]).certNotices.count aliceV.userId = 1 := by
  rw [(C3_notice_strict sampleCatalog (10 * secondsPerDay + 1) [aliceV] aliceV
    pyCourse 0 (by decide) (by decide) rfl rfl rfl).1]
  decide

/-! ## Claim C4 -/

/-- C4: submitting a new enrollment for a user id that already has a row
overwrites the application fields (name, phone, course, receipt, chat id) and
resets paymentStatus to pending, clears verificationDate, sets
certificateStatus to none, clears the certificate receipt and sets
certificateNotified to false. -/
theorem C4_reenrollment_overwrites (db : List StudentRecord) (uid : Nat)
    (n p c : String) (img : Nat) (chat : Int) (r : StudentRecord)
    (h : dbGet db uid = some r) :
    dbGet (add_student db uid n p c img chat) uid
      = some { userId := uid, fullName := n, phoneNumber := p, courseSelected := c,
               paymentReceipt := some img, paymentStatus := PaymentStatus.pending,
               chatId := chat, verificationDate := Option.none,
               certificateStatus := CertStatus.none, certificateReceipt := Option.none,
               certificateNotified := false } := by
  unfold add_student
  rw [h]
  dsimp only
  rw [dbGet_dbUpdate_self db uid
    (fun r => { r with
                fullName := n, phoneNumber := p, courseSelected := c,
                paymentReceipt := some img, paymentStatus := PaymentStatus.pending,
                chatId := chat, verificationDate := Option.none,
                certificateStatus := CertStatus.none,
                certificateReceipt := Option.none,
                certificateNotified := false })
    (fun _ => rfl), h]
  rw [Option.map_some']
  rw [dbGet_userId h]

/-- C4 witness: re-submission by an existing (verified, notified) user. -/
theorem C4_witness :
    dbGet (add_student [aliceV] 1 "Alicia" "0711111111" "Rust" 77 601) 1
      = some { userId := 1, fullName := "Alicia", phoneNumber := "0711111111",
               courseSelected := "Rust", paymentReceipt := some 77,
               paymentStatus := PaymentStatus.pending, chatId := 601,
               verificationDate := Option.none, certificateStatus := CertStatus.none,
               certificateReceipt := Option.none, certificateNotified := false } :=
  C4_reenrollment_overwrites [aliceV] 1 "Alicia" "0711111111" "Rust" 77 601 aliceV rfl

/-! ## Claim C5 -/

/-- C5: in the sweep the notified flag is set only after the eligibility send
was attempted; if delivery fails for one record the flag is left false (the
send was still attempted, so it retries next sweep) and a later record with
succeeding delivery is still processed and gets its flag set. -/
theorem C5_delivery_failure (catalog : List Course) (now : Nat)
    (sendOk : Nat → Bool) (db : List StudentRecord)
    (r : StudentRecord) (cd : Course) (v : Nat)
    (r2 : StudentRecord) (cd2 : Course) (v2 : Nat)
    (hnd : (db.map StudentRecord.userId).Nodup)
    (hr : r ∈ db) (hpv : r.paymentStatus = PaymentStatus.verified)
    (hv : r.verificationDate = some v)
    (hcd : get_course_details catalog r.courseSelected = some cd)
    (hcond : v + cd.certificate_wait_days * secondsPerDay < now ∧
      r.certificateNotified = false ∧ r.certificateStatus = CertStatus.none)
    (hfail : sendOk r.userId = false)
    (hr2 : r2 ∈ db) (hpv2 : r2.paymentStatus = PaymentStatus.verified)
    (hv2 : r2.verificationDate = some v2)
    (hcd2 : get_course_details catalog r2.courseSelected = some cd2)
    (hcond2 : v2 + cd2.certificate_wait_days * secondsPerDay < now ∧
      r2.certificateNotified = false ∧ r2.certificateStatus = CertStatus.none)
    (hok2 : sendOk r2.userId = true) :
    ((check_expiry_and_notify catalog now sendOk db).certNotices.count r.userId = 1)
    ∧ ((dbGet (check_expiry_and_notify catalog now sendOk db).db r.userId).map
        StudentRecord.certificateNotified = some false)
    ∧ ((dbGet (check_expiry_and_notify catalog now sendOk db).db r2.userId).map
        StudentRecord.certificateNotified = some true) := by
  obtain ⟨a1, a2⟩ := sweep_cert_spec catalog now sendOk db r cd v hnd hr hpv hv hcd
  obtain ⟨_, b2⟩ := sweep_cert_spec catalog now sendOk db r2 cd2 v2 hnd hr2 hpv2 hv2 hcd2
  refine ⟨?_, ?_, ?_⟩
  · rw [a1, if_pos hcond]
  · rw [a2]
    simp [hcond, hfail, hcond.2.1]
  · rw [b2]
    simp [hcond2, hok2]

/-- C5 witness: delivery fails for Alice (id 1) and succeeds for Bob (id 2);
Alice's flag stays false after an attempted send, Bob's is set. -/
theorem C5_witness :
    ((check_expiry_and_notify sampleCatalog (10 * secondsPerDay + 1) sendOkBob
        [aliceV, bobV]).certNotices.count aliceV.userId = 1)
    ∧ ((dbGet (check_expiry_and_notify sampleCatalog (10 * secondsPerDay + 1) sendOkBob
        [aliceV, bobV]).db aliceV.userId).map
        StudentRecord.certificateNotified = some false)
    ∧ ((dbGet (check_expiry_and_notify sampleCatalog (10 * secondsPerDay + 1) sendOkBob
        [aliceV, bobV]).db bobV.userId).map
        StudentRecord.certificateNotified = some true) :=
  C5_delivery_failure sampleCatalog (10 * secondsPerDay + 1) sendOkBob [aliceV, bobV]
    aliceV pyCourse 0 bobV pyCourse 0 (by decide) (by decide) rfl rfl rfl
    (by decide) rfl (by decide) rfl rfl rfl (by decide) rfl

/-! ## Claim C6 -/

/-- C6: the admin verify command applied twice to the same id changes state on
the first call only: the first call persists verified with
verificationDate = now₁; the second call replies already-verified, returns
the table unchanged, and therefore leaves verificationDate at now₁. -/
theorem C6_verify_idempotent (catalog catalog2 : List Course) (now1 now2 : Nat)
    (msgOk1 msgOk2 : Bool) (db : List StudentRecord) (uid : Nat)
    (r : StudentRecord) (h : dbGet db uid = some r)
    (hnv : r.paymentStatus ≠ PaymentStatus.verified) :
    ((dbGet (verify catalog now1 msgOk1 db uid).1 uid).map
        StudentRecord.paymentStatus = some PaymentStatus.verified)
    ∧ ((dbGet (verify catalog now1 msgOk1 db uid).1 uid).map
        StudentRecord.verificationDate = some (some now1))
    ∧ verify catalog2 now2 msgOk2 (verify catalog now1 msgOk1 db uid).1 uid
        = ((verify catalog now1 msgOk1 db uid).1, VerifyReply.alreadyVerified) := by
  have hdb1 := verify_db_of_not_verified catalog now1 msgOk1 db uid r h hnv
  have hget1 : dbGet (verify catalog now1 msgOk1 db uid).1 uid
      = some { r with
               paymentStatus := PaymentStatus.verified,
               verificationDate := some now1 } := by
    rw [hdb1, update_payment_status_self, h]
    rfl
  refine ⟨by rw [hget1]; rfl, by rw [hget1]; rfl, ?_⟩
  exact verify_already catalog2 now2 msgOk2 _ uid _ hget1 rfl

/-- C6 witness: verify twice on a pending student. -/
theorem C6_witness :
    verify sampleCatalog 999 true (verify sampleCatalog 500 true [alicePending] 1).1 1
      = ((verify sampleCatalog 500 true [alicePending] 1).1,
          VerifyReply.alreadyVerified) :=
  (C6_verify_idempotent sampleCatalog sampleCatalog 500 999 true true [alicePending] 1
    alicePending rfl (by decide)).2.2

/-! ## Claim C7 -/

/-- C7: certificate-workflow entry gating.  Without a row, or with
paymentStatus ≠ verified, entry is rejected and no session starts; with a
verified row whose course exists, entry before the eligibility date is
refused with the day count `(eligibleDate - now).days + 1` and no session
starts; from the eligibility date on, the session advances directly to
waiting for the certificate receipt. -/
theorem C7_certificate_gating (catalog : List Course) (now : Nat)
    (db : List StudentRecord) (uid : Nat) :
    (dbGet db uid = Option.none →
      certificate_entry catalog now db uid = CertEntryResult.rejectedNotEnrolled)
    ∧ (∀ r, dbGet db uid = some r → r.paymentStatus ≠ PaymentStatus.verified →
      certificate_entry catalog now db uid = CertEntryResult.rejectedNotEnrolled)
    ∧ (∀ r cd v, dbGet db uid = some r → r.paymentStatus = PaymentStatus.verified →
      get_course_details catalog r.courseSelected = some cd →
      r.verificationDate = some v →
      now < v + cd.certificate_wait_days * secondsPerDay →
      certificate_entry catalog now db uid = CertEntryResult.notYetEligible
        ((v + cd.certificate_wait_days * secondsPerDay - now) / secondsPerDay + 1))
    ∧ (∀ r cd v, dbGet db uid = some r → r.paymentStatus = PaymentStatus.verified →
      get_course_details catalog r.courseSelected = some cd →
      r.verificationDate = some v →
      v + cd.certificate_wait_days * secondsPerDay ≤ now →
      certificate_entry catalog now db uid = CertEntryResult.enterWaitingReceipt) := by
  refine ⟨?_, ?_, ?_, ?_⟩
  · exact certificate_entry_no_record catalog now db uid
  · exact fun r h hnv => certificate_entry_not_verified catalog now db uid r h hnv
  · exact fun r cd v h hpv hcd hv hlt =>
      certificate_entry_too_early catalog now db uid r cd v h hpv hcd hv hlt
  · exact fun r cd v h hpv hcd hv hge =>
      certificate_entry_eligible catalog now db uid r cd v h hpv hcd hv hge

/-- C7 witness: a verified student past the wait period enters the
receipt-waiting state. -/
theorem C7_witness :
    certificate_entry sampleCatalog (20 * secondsPerDay) [aliceV] 1
      = CertEntryResult.enterWaitingReceipt :=
  (C7_certificate_gating sampleCatalog (20 * secondsPerDay) [aliceV] 1).2.2.2
    aliceV pyCourse 0 rfl rfl rfl rfl (by decide)

/-! ## Claim C8 -/

/-- C8: once verify has persisted paymentStatus = verified with
verificationDate = now, neither a missing course definition nor a failing
messaging side effect reverts the persisted row; those failures only change
the admin-facing reply (course-not-found resp. partial-failure text). -/
theorem C8_verify_persists (catalog : List Course) (now : Nat) (msgOk : Bool)
    (db : List StudentRecord) (uid : Nat) (r : StudentRecord)
    (h : dbGet db uid = some r)
    (hnv : r.paymentStatus ≠ PaymentStatus.verified) :
    ((dbGet (verify catalog now msgOk db uid).1 uid).map
        StudentRecord.paymentStatus = some PaymentStatus.verified)
    ∧ ((dbGet (verify catalog now msgOk db uid).1 uid).map
        StudentRecord.verificationDate = some (some now))
    ∧ (get_course_details catalog r.courseSelected = Option.none →
        (verify catalog now msgOk db uid).2 = VerifyReply.courseNotFound)
    ∧ (∀ cd, get_course_details catalog r.courseSelected = some cd → msgOk = false →
        (verify catalog now msgOk db uid).2 = VerifyReply.partialFailure) := by
  have hdb1 := verify_db_of_not_verified catalog now msgOk db uid r h hnv
  have hget1 : dbGet (verify catalog now msgOk db uid).1 uid
      = some { r with
               paymentStatus := PaymentStatus.verified,
               verificationDate := some now } := by
    rw [hdb1, update_payment_status_self, h]
    rfl
  refine ⟨by rw [hget1]; rfl, by rw [hget1]; rfl, ?_, ?_⟩
  · intro hcdn
    unfold verify
    rw [h]
    dsimp only
    rw [if_neg hnv, hcdn]
  · intro cd hcd hm
    unfold verify
    rw [h]
    dsimp only
    rw [if_neg hnv, hcd]
    dsimp only
    rw [hm]
    rfl

/-- C8 witness: messaging fails (msgOk = false) yet the persisted status is
verified and the admin gets the partial-failure text. -/
theorem C8_witness :
    ((dbGet (verify sampleCatalog 500 false [alicePending] 1).1 1).map
        StudentRecord.paymentStatus = some PaymentStatus.verified)
    ∧ ((verify sampleCatalog 500 false [alicePending] 1).2
        = VerifyReply.partialFailure) := by
  obtain ⟨h1, _, _, h4⟩ := C8_verify_persists sampleCatalog 500 false [alicePending] 1
    alicePending rfl (by decide)
  exact ⟨h1, h4 pyCourse rfl rfl⟩

/-! ## Claim C9 -/

/-- C9: a verified record strictly past verificationDate + durationDays is
expired by the first sweep; a second sweep (at any time, with any delivery
outcomes) performs no further action on that record — its row is unchanged
and it receives no expiry and no certificate notice — because the sweep only
selects rows with paymentStatus = verified. -/
theorem C9_expiry_idempotent (catalog catalog2 : List Course) (now now2 : Nat)
    (sendOk sendOk2 : Nat → Bool) (db : List StudentRecord)
    (r : StudentRecord) (cd : Course) (v : Nat)
    (hnd : (db.map StudentRecord.userId).Nodup)
    (hr : r ∈ db) (hpv : r.paymentStatus = PaymentStatus.verified)
    (hv : r.verificationDate = some v)
    (hcd : get_course_details catalog r.courseSelected = some cd)
    (hexp : v + cd.duration_days * secondsPerDay < now) :
    ((dbGet (check_expiry_and_notify catalog now sendOk db).db r.userId).map
        StudentRecord.paymentStatus = some PaymentStatus.expired)
    ∧ (dbGet (check_expiry_and_notify catalog2 now2 sendOk2
        (check_expiry_and_notify catalog now sendOk db).db).db r.userId
        = dbGet (check_expiry_and_notify catalog now sendOk db).db r.userId)
    ∧ ((check_expiry_and_notify catalog2 now2 sendOk2
        (check_expiry_and_notify catalog now sendOk db).db).certNotices.count
          r.userId = 0)
    ∧ ((check_expiry_and_notify catalog2 now2 sendOk2
        (check_expiry_and_notify catalog now sendOk db).db).expiryNotices.count
          r.userId = 0) := by
  obtain ⟨_, a2⟩ := sweep_cert_spec catalog now sendOk db r cd v hnd hr hpv hv hcd
  have hnd1 : ((check_expiry_and_notify catalog now sendOk db).db.map
      StudentRecord.userId).Nodup := by
    rw [sweep_keys]
    exact hnd
  have hmiss := snapshot_misses (check_expiry_and_notify catalog now sendOk db).db
    r.userId hnd1 _ a2 (by simp [hexp])
  obtain ⟨u1, u2, u3⟩ := sweep_untouched catalog2 now2 sendOk2
    (check_expiry_and_notify catalog now sendOk db).db r.userId hmiss
  refine ⟨?_, u1, u2, u3⟩
  rw [a2]
  simp [hexp]

/-- C9 witness: 31 days after verification with a 30-day course. -/
theorem C9_witness :
    ((dbGet (check_expiry_and_notify sampleCatalog (31 * secondsPerDay) (fun _ => true)
        [aliceV]).db aliceV.userId).map StudentRecord.paymentStatus
      = some PaymentStatus.expired)
    ∧ ((check_expiry_and_notify sampleCatalog (31 * secondsPerDay) (fun _ => true)
        (check_expiry_and_notify sampleCatalog (31 * secondsPerDay) (fun _ => true)
          [aliceV]).db).expiryNotices.count aliceV.userId = 0) := by
  obtain ⟨h1, _, _, h4⟩ := C9_expiry_idempotent sampleCatalog sampleCatalog
    (31 * secondsPerDay) (31 * secondsPerDay) (fun _ => true) (fun _ => true)
    [aliceV] aliceV pyCourse 0 (by decide) (by decide) rfl rfl rfl (by decide)
  exact ⟨h1, h4⟩

/-! ## Claim C10 -/

/-- C10: certificate entry never inspects certificateStatus — changing that
field (to denied, verified, anything) changes nothing about the entry
outcome — and submitting a certificate receipt sets certificateStatus to
pending unconditionally, whatever it was before. -/
theorem C10_cert_status_ignored (catalog : List Course) (now : Nat)
    (db : List StudentRecord) (uid : Nat) (c : CertStatus) (img : Nat) :
    (certificate_entry catalog now (update_certificate_status db uid c) uid
      = certificate_entry catalog now db uid)
    ∧ (∀ r, dbGet db uid = some r →
      dbGet (add_certificate_receipt db uid img) uid
        = some { r with
                 certificateStatus := CertStatus.pending,
                 certificateReceipt := some img }) := by
  constructor
  · unfold certificate_entry
    rw [update_certificate_status_self]
    cases hg : dbGet db uid with
    | none => rfl
    | some r =>
        obtain ⟨ruid, rfn, rpn, rcs, rpr, rps, rci, rvd, rcse, rcre, rcn⟩ := r
        rfl
  · intro r h
    rw [add_certificate_receipt_self, h]
    rfl

/-- C10 witness: a previously denied certificate is silently reset to pending
by a new receipt submission. -/
theorem C10_witness :
    dbGet (add_certificate_receipt [aliceDeniedCert] 1 88) 1
      = some { aliceDeniedCert with
               certificateStatus := CertStatus.pending,
               certificateReceipt := some 88 } :=
  (C10_cert_status_ignored sampleCatalog 0 [aliceDeniedCert] 1 CertStatus.none 88).2
    aliceDeniedCert rfl
